import Mathlib

/-!
# Verification of the chaos-frontend-client session client and Unity bridge

Shallow embedding of the two stateful components of the repository:

* `ApiService` (src/unnamed/part_001): token persistence in `localStorage`,
  login/register/refresh/logout flows, the axios response interceptor that
  retries a request once after a 401 by refreshing the token pair.
* `UnityBridge` (src/web-assets/src/js/ui/ui-manager.ts): readiness gating,
  outbound message queue drained on readiness, `on`/`off`/`emit` pub-sub.

HTTP calls and the Unity host are modelled as environment parameters giving
the outcome of each external interaction; `localStorage` is a partial map
from string keys to strings; JavaScript string truthiness (`!!s`, `if (s)`)
is modelled explicitly (`null`/`undefined` and the empty string are falsy).
-/

namespace ChaosFrontend

/-- JavaScript truthiness of a nullable string: `null`/`undefined` and `""`
are falsy, every other string is truthy. -/
def jsTruthyStr : Option String → Bool
  | none => false
  | some s => !(s == "")

/-! ## localStorage model

`localStorage` is a key-value store; `getItem` returns `null` for a missing
key, `setItem` overwrites, `removeItem` deletes. -/

/-- The browser-local key-value store. -/
def LocalStorage := String → Option String

/-- `localStorage.getItem(k)`. -/
def getItem (st : LocalStorage) (k : String) : Option String := st k

/-- `localStorage.setItem(k, v)`. -/
def setItem (st : LocalStorage) (k v : String) : LocalStorage :=
  fun q => if q = k then some v else st q

/-- `localStorage.removeItem(k)`. -/
def removeItem (st : LocalStorage) (k : String) : LocalStorage :=
  fun q => if q = k then none else st q

/-- A store with no keys. -/
def emptyStorage : LocalStorage := fun _ => none

/-- The fixed key under which the access token is persisted. -/
def accessKey : String := "chaos-world-access-token"

/-- The fixed key under which the refresh token is persisted. -/
def refreshKey : String := "chaos-world-refresh-token"

/-! ## Server-side data types (src/unnamed/part_001, interfaces) -/

/-- The `tokens` object of an `AuthResponse` (snake_case server fields). -/
structure Tokens where
  access_token : String
  refresh_token : String
  expires_in : Nat
deriving DecidableEq, Repr

/-- The `user` object of an `AuthResponse` (snake_case server fields). -/
structure BackendUser where
  id : String
  username : String
  email : String
  display_name : String
  avatar_url : Option String
  status : String
  email_verified : Bool
  created_at : String
  updated_at : String
  last_login : Option String
deriving DecidableEq, Repr

/-- Response of `POST /auth/login`, `POST /auth/register`, `POST /auth/refresh`.
The TypeScript interface declares `tokens` non-optional, but the code guards
on its truthiness (`response.data.success && response.data.tokens`), so it is
modelled as optional. -/
structure AuthResponse where
  success : Bool
  user : BackendUser
  tokens : Option Tokens
deriving DecidableEq, Repr

/-- Server error body (`ErrorResponse` interface). -/
structure ErrResponse where
  error : String
  details : Option String
deriving DecidableEq, Repr

/-- An axios rejection value: `error.response?.status`, `error.response?.data`,
presence of `error.request`, and `error.message`. -/
structure AxiosError where
  status : Option Nat
  responseData : Option ErrResponse
  hasRequest : Bool
  message : String
deriving DecidableEq, Repr

/-- A value rejected to a caller: either the raw axios error of the original
request (`Promise.reject(error)`) or an `Error` built by the service
(`new Error(msg)` / `handleError`). -/
inductive JsError where
  | axios (e : AxiosError)
  | err (msg : String)
deriving DecidableEq, Repr

/-- Frontend `UserProfile` (camelCase). `joinDate` keeps the server string the
`Date` was constructed from. -/
structure UserProfile where
  id : String
  username : String
  email : String
  displayName : String
  avatar : Option String
  level : Nat
  joinDate : String
  lastLogin : Option String
deriving DecidableEq, Repr

/-- JavaScript `a || b` for a possibly-absent string `a` (falsy when absent or
empty). -/
def jsOrStr (a : Option String) (b : String) : String :=
  match a with
  | some s => if s = "" then b else s
  | none => b

/-- `ApiService.handleError`: prefer the server body's `details`, then its
`error`, then a generic message; a missing response with a present `request`
is a network error; otherwise fall back to `error.message`. Returns the
message of the constructed `Error`. -/
def handleError (e : AxiosError) : String :=
  match e.responseData with
  | some d => jsOrStr d.details (jsOrStr (some d.error) "An error occurred")
  | none =>
      if e.hasRequest then "Network error: Unable to connect to server"
      else jsOrStr (some e.message) "An unexpected error occurred"

/-! ## ApiService state and token management -/

/-- Mutable state of `ApiService`: the two in-memory token fields and the
persisted store. -/
structure ApiState where
  accessToken : Option String
  refreshToken : Option String
  storage : LocalStorage

/-- `ApiService.loadTokens`: read both keys from `localStorage` into the
in-memory fields. -/
def loadTokens (s : ApiState) : ApiState :=
  { s with
    accessToken := getItem s.storage accessKey
    refreshToken := getItem s.storage refreshKey }

/-- `ApiService.saveTokens`: persist both keys, then set both in-memory
fields. -/
def saveTokens (s : ApiState) (accessToken refreshToken : String) : ApiState :=
  { s with
    storage := setItem (setItem s.storage accessKey accessToken) refreshKey refreshToken
    accessToken := some accessToken
    refreshToken := some refreshToken }

/-- `ApiService.clearTokens`: remove both keys, then null both in-memory
fields. -/
def clearTokens (s : ApiState) : ApiState :=
  { s with
    storage := removeItem (removeItem s.storage accessKey) refreshKey
    accessToken := none
    refreshToken := none }

/-- `ApiService.convertToUserProfile`: snake_case backend user to camelCase
profile; `level` defaults to 1. -/
def convertToUserProfile (backendUser : BackendUser) : UserProfile :=
  { id := backendUser.id
    username := backendUser.username
    email := backendUser.email
    displayName := backendUser.display_name
    avatar := backendUser.avatar_url
    level := 1
    joinDate := backendUser.created_at
    lastLogin := backendUser.last_login }

/-- `ApiService.login`: POST the credentials; on a successful response whose
`success` and `tokens` are truthy, persist the token pair; resolve with the
raw response data. On a rejected request, throw `handleError(error)`.
The argument `result` is the settled outcome of the HTTP call. -/
def login (result : Except AxiosError AuthResponse) (s : ApiState) :
    ApiState × Except JsError AuthResponse :=
  match result with
  | .ok resp =>
      if resp.success then
        match resp.tokens with
        | some t => (saveTokens s t.access_token t.refresh_token, .ok resp)
        | none => (s, .ok resp)
      else (s, .ok resp)
  | .error e => (s, .error (.err (handleError e)))

/-- `ApiService.register`: same shape as `login`, against `/auth/register`. -/
def register (result : Except AxiosError AuthResponse) (s : ApiState) :
    ApiState × Except JsError AuthResponse :=
  match result with
  | .ok resp =>
      if resp.success then
        match resp.tokens with
        | some t => (saveTokens s t.access_token t.refresh_token, .ok resp)
        | none => (s, .ok resp)
      else (s, .ok resp)
  | .error e => (s, .error (.err (handleError e)))

/-- `ApiService.refreshAccessToken`. If no (truthy) refresh token is stored,
throw without contacting the server. Otherwise POST `/auth/refresh`
(`refreshResult` is that call's settled outcome); on `success && tokens`
persist the new pair; otherwise (or on a rejected call) clear the tokens and
throw `handleError`. Returns the new state, the thrown error if any, and the
number of refresh POSTs issued. -/
def refreshAccessToken (refreshResult : Except AxiosError AuthResponse)
    (s : ApiState) : ApiState × Except JsError Unit × Nat :=
  if jsTruthyStr s.refreshToken = false then
    (s, .error (.err "No refresh token available"), 0)
  else
    match refreshResult with
    | .ok resp =>
        if resp.success then
          match resp.tokens with
          | some t => (saveTokens s t.access_token t.refresh_token, .ok (), 1)
          | none =>
              (clearTokens s,
               .error (.err (handleError ⟨none, none, false, "Failed to refresh token"⟩)), 1)
        else
          (clearTokens s,
           .error (.err (handleError ⟨none, none, false, "Failed to refresh token"⟩)), 1)
    | .error e => (clearTokens s, .error (.err (handleError e)), 1)

/-- `ApiService.logout`: if the access token is truthy, POST `/auth/logout`
(best effort; `serverResult` is its settled outcome, a failure only logs a
warning); `finally` clear the tokens. Never throws. Returns the new state and
the warning log. -/
def logout (serverResult : Except AxiosError Unit) (s : ApiState) :
    ApiState × List String :=
  let warns :=
    if jsTruthyStr s.accessToken then
      match serverResult with
      | .ok _ => ([] : List String)
      | .error _ => ["Logout request failed"]
    else []
  (clearTokens s, warns)

/-- `ApiService.logoutAll`: identical shape against `/auth/logout-all`. -/
def logoutAll (serverResult : Except AxiosError Unit) (s : ApiState) :
    ApiState × List String :=
  let warns :=
    if jsTruthyStr s.accessToken then
      match serverResult with
      | .ok _ => ([] : List String)
      | .error _ => ["Logout all request failed"]
    else []
  (clearTokens s, warns)

/-- `ApiService.isAuthenticated`: `!!this.accessToken`. -/
def isAuthenticated (s : ApiState) : Bool := jsTruthyStr s.accessToken

/-! ## The axios response interceptor -/

/-- The mutable axios request config of one request: its `_retry` flag and its
`Authorization` header. -/
structure OrigRequest where
  retry : Bool
  auth : Option String
deriving DecidableEq, Repr

/-- `` `Bearer ${this.accessToken}` `` (a null token prints as the string
`"null"` inside a template literal). -/
def bearerOf : Option String → String
  | some t => "Bearer " ++ t
  | none => "Bearer null"

/-- Environment of one activation of the response interceptor's rejection
handler: the settled outcome of the `POST /auth/refresh` the service would
issue, the settled outcome of replaying the original request
(`this.api(originalRequest)`), and whether `window.gameUI` is present. -/
structure InterceptEnv where
  refreshResult : Except AxiosError AuthResponse
  replayResult : Except JsError String
  hasGameUI : Bool

/-- Result of one activation of the rejection handler. -/
structure InterceptOut where
  /-- service state after the activation -/
  state : ApiState
  /-- the (mutated) original request config -/
  request : OrigRequest
  /-- the value the caller's promise settles with -/
  result : Except JsError String
  /-- number of `POST /auth/refresh` calls issued by this activation -/
  refreshPosts : Nat
  /-- whether `redirectToLogin()` ran (it calls `window.gameUI.logout()`
  when the UI layer is present) -/
  redirectCalled : Bool

/-- The response interceptor's rejection handler
(`ApiService` constructor, lines 103–124). On a 401 whose request has not
been retried, set `_retry`, refresh the token pair, stamp the new bearer
token on the request and replay it; if the refresh throws, clear the tokens,
redirect to login and reject with the refresh error. Any other rejection
passes through. -/
def responseInterceptorOnRejected (env : InterceptEnv) (err : AxiosError)
    (req : OrigRequest) (s : ApiState) : InterceptOut :=
  if err.status = some 401 ∧ req.retry = false then
    let req1 : OrigRequest := { req with retry := true }
    let (s1, r, n) := refreshAccessToken env.refreshResult s
    match r with
    | .ok _ =>
        ({ state := s1
           request := { req1 with auth := some (bearerOf s1.accessToken) }
           result := env.replayResult
           refreshPosts := n
           redirectCalled := false })
    | .error refreshErr =>
        ({ state := clearTokens s1
           request := req1
           result := .error refreshErr
           refreshPosts := n
           redirectCalled := true })
  else
    ({ state := s, request := req, result := .error (.axios err)
       refreshPosts := 0, redirectCalled := false })

/-- The refresh outcome counts as failed when the call was rejected, or the
response is not a truthy `success && tokens`. -/
def refreshFailed (refreshResult : Except AxiosError AuthResponse) : Prop :=
  match refreshResult with
  | .ok resp => resp.success = false ∨ resp.tokens = none
  | .error _ => True

instance (r : Except AxiosError AuthResponse) : Decidable (refreshFailed r) := by
  unfold refreshFailed
  cases r with
  | ok resp => exact inferInstanceAs (Decidable (_ ∨ _))
  | error e => exact inferInstanceAs (Decidable True)

/-! ## UnityBridge (src/web-assets/src/js/ui/ui-manager.ts) -/

/-- An entry of the outbound message queue (`UnityMessage`). -/
structure UnityMessage where
  method : String
  data : String
deriving DecidableEq, Repr

/-- An instantiated Unity runtime (abstract handle). -/
structure UnityInstance where
  handle : Nat
deriving DecidableEq, Repr

/-- An inbound event handler. `id` stands for JavaScript reference identity
(used by `Array.prototype.indexOf` in `off`); `run` is the callback body,
which either returns or throws. Callbacks are modelled as effect-free on the
bridge. -/
structure EventHandler where
  id : Nat
  run : String → Except String Unit

/-- Observable interactions of the bridge with its host environment. -/
inductive BridgeOut where
  /-- a console warning that a message was queued -/
  | warnQueued (method data : String)
  /-- `unityInstance.SendMessage(gameObject, method, data)` was invoked -/
  | sendMessage (gameObject method data : String)
  /-- `UnityLoader.instantiate` was invoked -/
  | instantiated
  /-- a console error -/
  | errorLog (msg : String)
deriving DecidableEq, Repr

/-- Host environment of the bridge: whether `window.UnityLoader` and the
canvas are available before the readiness timeout, whether instantiation
throws, the instance it yields, and whether `SendMessage` throws for a given
method/data pair. -/
structure HostEnv where
  loaderAvailable : Bool
  instantiateThrows : Bool
  instance0 : UnityInstance
  sendThrows : String → String → Bool

/-- Mutable state of `UnityBridge`. -/
structure UnityBridge where
  unityInstance : Option UnityInstance
  isReady : Bool
  eventListeners : String → Option (List EventHandler)
  messageQueue : List UnityMessage
  /-- whether `setupUnityCommunication` installed `window.UnityToHTML` -/
  uiDispatchInstalled : Bool

/-- A bridge as built by the constructor: no instance, not ready, no
listeners, empty queue. -/
def UnityBridge.mk0 : UnityBridge :=
  { unityInstance := none, isReady := false, eventListeners := fun _ => none
    messageQueue := [], uiDispatchInstalled := false }

/-- `UnityBridge.sendToUnity`: when not ready or without an instance, queue
the message (with a warning); otherwise call `SendMessage` on the instance —
an exception from the host is caught and logged, the message is not
requeued. -/
def sendToUnity (env : HostEnv) (s : UnityBridge) (methodName : String)
    (data : String) : UnityBridge × List BridgeOut :=
  if s.isReady = false ∨ s.unityInstance = none then
    ({ s with messageQueue := s.messageQueue ++ [⟨methodName, data⟩] },
     [.warnQueued methodName data])
  else
    (s,
     .sendMessage "HybridUIManager" methodName data ::
       (if env.sendThrows methodName data
        then [.errorLog "Failed to send message to Unity"] else []))

/-- `UnityBridge.processMessageQueue`: `while (queue.length > 0) { shift;
sendToUnity }`. The `fuel` argument bounds the number of loop iterations the
embedding unfolds; when the bridge is ready with an instance, each iteration
removes one message for good, so `fuel = queue.length` runs the loop to
completion (proved below). -/
def processMessageQueue (env : HostEnv) :
    Nat → UnityBridge → UnityBridge × List BridgeOut
  | 0, s => (s, [])
  | fuel + 1, s =>
      match s.messageQueue with
      | [] => (s, [])
      | m :: rest =>
          let r1 := sendToUnity env { s with messageQueue := rest }
            m.method m.data
          let r2 := processMessageQueue env fuel r1.1
          (r2.1, r1.2 ++ r2.2)

/-- `UnityBridge.loadUnity`: `UnityLoader.instantiate` on the canvas; stores
the instance (overwriting any previous one) or throws a load error. -/
def loadUnity (env : HostEnv) (s : UnityBridge) :
    Except String (UnityBridge × List BridgeOut) :=
  if env.instantiateThrows then .error "Failed to load Unity"
  else .ok ({ s with unityInstance := some env.instance0 }, [.instantiated])

/-- `UnityBridge.init`: wait for the host loader (polling; a timeout rejects),
load Unity, install the inbound dispatch table, set readiness, drain the
queue. There is no guard on `isReady`: a second call runs the whole body
again. -/
def init (env : HostEnv) (s : UnityBridge) :
    Except String (UnityBridge × List BridgeOut) :=
  if env.loaderAvailable = false then
    .error "Unity failed to load within timeout"
  else
    match loadUnity env s with
    | .error e => .error e
    | .ok r1 =>
        let s2 := { r1.1 with uiDispatchInstalled := true, isReady := true }
        let r2 := processMessageQueue env s2.messageQueue.length s2
        .ok (r2.1, r1.2 ++ r2.2)

/-- `UnityBridge.on`: create the (empty) listener array for the event if
absent, then push the callback at the end. (Named `onEvent` here because
`on` is notation in Mathlib.) -/
def onEvent (s : UnityBridge) (event : String) (callback : EventHandler) :
    UnityBridge :=
  let cur := (s.eventListeners event).getD []
  { s with eventListeners :=
      fun q => if q = event then some (cur ++ [callback]) else s.eventListeners q }

/-- `Array.prototype.indexOf` on the listener array: index of the first
entry with the callback's reference identity, `none` for `-1`. -/
def jsIndexOf : List EventHandler → EventHandler → Option Nat
  | [], _ => none
  | x :: rest, callback =>
      if x.id == callback.id then some 0
      else (jsIndexOf rest callback).map (· + 1)

/-- `UnityBridge.off`: if the event has listeners, `indexOf` the callback
(reference identity) and splice out that single occurrence; otherwise do
nothing. (Named `offEvent` to match `onEvent`.) -/
def offEvent (s : UnityBridge) (event : String) (callback : EventHandler) :
    UnityBridge :=
  match s.eventListeners event with
  | none => s
  | some listeners =>
      match jsIndexOf listeners callback with
      | none => s
      | some i =>
          { s with eventListeners :=
              fun q => if q = event then some (listeners.eraseIdx i)
                       else s.eventListeners q }

/-- Run the listener array in order, as `forEach` with a per-callback
`try/catch`: a throwing callback contributes an error log and the iteration
continues. Returns the ids invoked (in order) and the error logs. -/
def runCallbacks : List EventHandler → String → List Nat × List String
  | [], _ => ([], [])
  | cb :: rest, d =>
      let logs : List String :=
        match cb.run d with
        | .ok _ => []
        | .error _ => ["Error in event callback"]
      let r := runCallbacks rest d
      (cb.id :: r.1, logs ++ r.2)

/-- `UnityBridge.emit`: dispatch to the event's listeners, if any. The
subscription map is only read, never written. Returns the (unchanged) state,
the invoked callback ids in order, and the error logs. -/
def emit (s : UnityBridge) (event : String) (data : String) :
    UnityBridge × List Nat × List String :=
  match s.eventListeners event with
  | none => (s, [], [])
  | some listeners => (s, runCallbacks listeners data)

/-- Whether a callback throws on the given payload. -/
def handlerThrows (cb : EventHandler) (d : String) : Bool :=
  match cb.run d with
  | .ok _ => false
  | .error _ => true

/-- Fold a list of `(method, data)` send requests through `sendToUnity`,
collecting outputs. -/
def sendAll (env : HostEnv) (s : UnityBridge) :
    List (String × String) → UnityBridge × List BridgeOut
  | [] => (s, [])
  | p :: rest =>
      let r1 := sendToUnity env s p.1 p.2
      let r2 := sendAll env r1.1 rest
      (r2.1, r1.2 ++ r2.2)

/-- The `SendMessage` calls among a list of bridge outputs, as
`(method, data)` pairs (all are addressed to `HybridUIManager`). -/
def sentMessages : List BridgeOut → List (String × String)
  | [] => []
  | .sendMessage _ m d :: rest => (m, d) :: sentMessages rest
  | _ :: rest => sentMessages rest

/-- Number of `UnityLoader.instantiate` calls among the outputs. -/
def instantiations : List BridgeOut → Nat
  | [] => 0
  | .instantiated :: rest => instantiations rest + 1
  | _ :: rest => instantiations rest

/-- Host environment where the loader is available, instantiation succeeds,
and `SendMessage` never throws. -/
def goodHost : HostEnv :=
  { loaderAvailable := true, instantiateThrows := false
    instance0 := ⟨1⟩, sendThrows := fun _ _ => false }

/-- The bridge state after a successful first `init()` on a fresh bridge
against `goodHost`. -/
def bridgeAfterFirstInit : UnityBridge :=
  { unityInstance := some ⟨1⟩, isReady := true
    eventListeners := fun _ => none, messageQueue := []
    uiDispatchInstalled := true }

/-- The two messages of the C2 witness scenario. -/
def twoMsgs : List (String × String) := [("M1", "d1"), ("M2", "d2")]

/-- A handler that returns normally. -/
def handlerOne : EventHandler := ⟨1, fun _ => .ok ()⟩

/-- A handler that throws. -/
def handlerThrowing : EventHandler := ⟨2, fun _ => .error "boom"⟩

/-- A second normal handler. -/
def handlerThree : EventHandler := ⟨3, fun _ => .ok ()⟩

/-- The persisted store of the C5 counterexample: only the access-token key
is present. -/
def partialStore : LocalStorage := setItem emptyStorage accessKey "a1"

/-- The backend user of the C9 scenario. -/
def aliceUser : BackendUser :=
  { id := "u-1", username := "alice", email := "alice@example.com"
    display_name := "Alice", avatar_url := none, status := "active"
    email_verified := true, created_at := "2024-01-01T00:00:00Z"
    updated_at := "2024-01-01T00:00:00Z", last_login := none }

/-- The server response of the C9 scenario. -/
def aliceResp : AuthResponse :=
  { success := true, user := aliceUser
    tokens := some ⟨"a1", "r1", 3600⟩ }

/-- A session holding the stored pair `{access: "A", refresh: "R"}`. -/
def sessionAR : ApiState :=
  { accessToken := some "A", refreshToken := some "R", storage := emptyStorage }

/-- A 401 rejection of some original request. -/
def err401 : AxiosError :=
  { status := some 401, responseData := some ⟨"Unauthorized", none⟩
    hasRequest := false, message := "Request failed with status code 401" }

/-- The original request's config before any retry. -/
def reqOrig : OrigRequest := { retry := false, auth := some "Bearer A" }

/-- A successful refresh response carrying the new pair `a2`/`r2`. -/
def refreshOkResp : AuthResponse :=
  { success := true, user := aliceUser, tokens := some ⟨"a2", "r2", 3600⟩ }

/-- Interceptor environment where the refresh succeeds and the replay
resolves. -/
def envRefreshOk : InterceptEnv :=
  { refreshResult := .ok refreshOkResp, replayResult := .ok "replayed-response"
    hasGameUI := true }

/-- A network failure of the refresh call itself. -/
def refreshNetErr : AxiosError :=
  { status := none, responseData := none, hasRequest := true
    message := "Network Error" }

/-- Interceptor environment where the refresh call fails on the network. -/
def envRefreshFail : InterceptEnv :=
  { refreshResult := .error refreshNetErr, replayResult := .ok "unused"
    hasGameUI := true }

/-- The `ApiService` constructor's state initialisation: both in-memory
fields start `null`, then `loadTokens()` reads the store. -/
def constructApiService (st : LocalStorage) : ApiState :=
  loadTokens { accessToken := none, refreshToken := none, storage := st }

/-- Both-or-neither for the in-memory token fields. -/
def memConsistent (s : ApiState) : Prop :=
  s.accessToken.isSome = s.refreshToken.isSome

/-- Both-or-neither for the two persisted keys. -/
def storeConsistent (st : LocalStorage) : Prop :=
  (getItem st accessKey).isSome = (getItem st refreshKey).isSome

/-- Both-or-neither in memory and in the store. -/
def sessionConsistent (s : ApiState) : Prop :=
  memConsistent s ∧ storeConsistent s.storage

/-! ## Basic storage lemmas -/

theorem getItem_setItem_self (st : LocalStorage) (k v : String) :
    getItem (setItem st k v) k = some v := by
  simp [getItem, setItem]

theorem getItem_setItem_ne (st : LocalStorage) (k v q : String) (h : q ≠ k) :
    getItem (setItem st k v) q = getItem st q := by
  simp [getItem, setItem, h]

theorem getItem_removeItem_self (st : LocalStorage) (k : String) :
    getItem (removeItem st k) k = none := by
  simp [getItem, removeItem]

theorem getItem_removeItem_ne (st : LocalStorage) (k q : String) (h : q ≠ k) :
    getItem (removeItem st k) q = getItem st q := by
  simp [getItem, removeItem, h]

theorem accessKey_ne_refreshKey : accessKey ≠ refreshKey := by decide

theorem saveTokens_storage_access (s : ApiState) (a r : String) :
    getItem (saveTokens s a r).storage accessKey = some a := by
  unfold saveTokens
  rw [getItem_setItem_ne _ _ _ _ accessKey_ne_refreshKey, getItem_setItem_self]

theorem saveTokens_storage_refresh (s : ApiState) (a r : String) :
    getItem (saveTokens s a r).storage refreshKey = some r := by
  unfold saveTokens
  rw [getItem_setItem_self]

theorem clearTokens_storage_access (s : ApiState) :
    getItem (clearTokens s).storage accessKey = none := by
  unfold clearTokens
  rw [getItem_removeItem_ne _ _ _ accessKey_ne_refreshKey, getItem_removeItem_self]

theorem clearTokens_storage_refresh (s : ApiState) :
    getItem (clearTokens s).storage refreshKey = none := by
  unfold clearTokens
  rw [getItem_removeItem_self]

theorem memConsistent_saveTokens (s : ApiState) (a r : String) :
    memConsistent (saveTokens s a r) := by
  simp [memConsistent, saveTokens]

theorem memConsistent_clearTokens (s : ApiState) :
    memConsistent (clearTokens s) := by
  simp [memConsistent, clearTokens]

theorem sessionConsistent_saveTokens (s : ApiState) (a r : String) :
    sessionConsistent (saveTokens s a r) := by
  constructor
  · exact memConsistent_saveTokens s a r
  · unfold storeConsistent
    rw [saveTokens_storage_access, saveTokens_storage_refresh]
    simp

theorem sessionConsistent_clearTokens (s : ApiState) :
    sessionConsistent (clearTokens s) := by
  constructor
  · exact memConsistent_clearTokens s
  · unfold storeConsistent
    rw [clearTokens_storage_access, clearTokens_storage_refresh]

theorem sessionConsistent_login (res : Except AxiosError AuthResponse)
    (s : ApiState) (h : sessionConsistent s) :
    sessionConsistent (login res s).1 := by
  unfold login
  cases res with
  | ok resp =>
      by_cases hs : resp.success
      · cases ht : resp.tokens with
        | some t => simp only [hs, ht, if_true]; exact sessionConsistent_saveTokens ..
        | none => simpa only [hs, ht, if_true] using h
      · simpa only [hs, if_false] using h
  | error e => exact h

theorem sessionConsistent_register (res : Except AxiosError AuthResponse)
    (s : ApiState) (h : sessionConsistent s) :
    sessionConsistent (register res s).1 := by
  unfold register
  cases res with
  | ok resp =>
      by_cases hs : resp.success
      · cases ht : resp.tokens with
        | some t => simp only [hs, ht, if_true]; exact sessionConsistent_saveTokens ..
        | none => simpa only [hs, ht, if_true] using h
      · simpa only [hs, if_false] using h
  | error e => exact h

theorem sessionConsistent_refreshAccessToken
    (res : Except AxiosError AuthResponse) (s : ApiState)
    (h : sessionConsistent s) :
    sessionConsistent (refreshAccessToken res s).1 := by
  unfold refreshAccessToken
  by_cases htr : jsTruthyStr s.refreshToken = false
  · simpa only [htr, if_true] using h
  · simp only [htr, if_false]
    cases res with
    | ok resp =>
        by_cases hs : resp.success
        · cases ht : resp.tokens with
          | some t => simp only [hs, ht, if_true]; exact sessionConsistent_saveTokens ..
          | none => simp only [hs, ht, if_true]; exact sessionConsistent_clearTokens ..
        · simp only [hs, if_false]; exact sessionConsistent_clearTokens ..
    | error e => exact sessionConsistent_clearTokens ..

theorem sessionConsistent_logout (srv : Except AxiosError Unit) (s : ApiState) :
    sessionConsistent (logout srv s).1 :=
  sessionConsistent_clearTokens s

theorem sessionConsistent_logoutAll
    (srv : Except AxiosError Unit) (s : ApiState) :
    sessionConsistent (logoutAll srv s).1 :=
  sessionConsistent_clearTokens s

theorem sessionConsistent_loadTokens (s : ApiState)
    (h : storeConsistent s.storage) :
    sessionConsistent (loadTokens s) :=
  ⟨h, h⟩

/-! ## Claim C5 -/

/-- The persisted store of the C5 counterexample: only the access-token key
is present. -/
theorem partialStore_access : getItem partialStore accessKey = some "a1" :=
  getItem_setItem_self ..

theorem partialStore_refresh : getItem partialStore refreshKey = none := by
  rw [partialStore, getItem_setItem_ne _ _ _ _ (Ne.symm accessKey_ne_refreshKey)]
  rfl

theorem construct_partialStore_access :
    (constructApiService partialStore).accessToken = some "a1" := by
  simp only [constructApiService, loadTokens]
  exact partialStore_access

theorem construct_partialStore_refresh :
    (constructApiService partialStore).refreshToken = none := by
  simp only [constructApiService, loadTokens]
  exact partialStore_refresh

/-- C5, counterexample. The claim includes "load at construction" among the
operations after which the two tokens are never partially present; but
constructing the service over a store in which only the access-token key
survived yields an in-memory state with exactly one token set (and a store
with exactly one key), so the claim as stated is false. -/
theorem C5_counterexample_partial_load :
    (constructApiService partialStore).accessToken = some "a1" ∧
    (constructApiService partialStore).refreshToken = none ∧
    ¬ memConsistent (constructApiService partialStore) := by
  refine ⟨construct_partialStore_access, construct_partialStore_refresh, ?_⟩
  intro hmem
  rw [memConsistent, construct_partialStore_access,
    construct_partialStore_refresh] at hmem
  simp at hmem

/-- C5 (amended): each write operation (`saveTokens`, `clearTokens`) covers
both token fields together and establishes the both-or-neither invariant in
memory and store; `login`, `register`, `refreshAccessToken` preserve it, and
`logout`/`logoutAll` re-establish it unconditionally; the load at
construction preserves it provided the persisted store itself satisfies it
(a store corrupted to hold exactly one of the two keys is loaded as-is). -/
theorem C5_session_all_or_none :
    (∀ s a r, sessionConsistent (saveTokens s a r)) ∧
    (∀ s, sessionConsistent (clearTokens s)) ∧
    (∀ st, storeConsistent st → sessionConsistent (constructApiService st)) ∧
    (∀ res s, sessionConsistent s → sessionConsistent (login res s).1) ∧
    (∀ res s, sessionConsistent s → sessionConsistent (register res s).1) ∧
    (∀ res s, sessionConsistent s →
      sessionConsistent (refreshAccessToken res s).1) ∧
    (∀ srv s, sessionConsistent (logout srv s).1) ∧
    (∀ srv s, sessionConsistent (logoutAll srv s).1) := by
  refine ⟨sessionConsistent_saveTokens, sessionConsistent_clearTokens,
    ?_, sessionConsistent_login, sessionConsistent_register,
    sessionConsistent_refreshAccessToken, sessionConsistent_logout,
    sessionConsistent_logoutAll⟩
  intro st h
  exact sessionConsistent_loadTokens ⟨none, none, st⟩ h

/-- C5 (amended), witness: concrete instantiation of the hypothesised parts
at an empty store / a consistent state. -/
theorem C5_session_all_or_none_witness :
    storeConsistent emptyStorage ∧
    sessionConsistent (constructApiService emptyStorage) ∧
    sessionConsistent
      (login (.error ⟨none, none, true, "boom"⟩)
        (constructApiService emptyStorage)).1 := by
  have h0 : storeConsistent emptyStorage := rfl
  have h1 := C5_session_all_or_none.2.2.1 emptyStorage h0
  exact ⟨h0, h1, C5_session_all_or_none.2.2.2.1 _ _ h1⟩

/-! ## Claim C6 -/

/-- C6: `logout()` (and `logoutAll()`) always ends with both local tokens
cleared — in memory and in the store — whatever the prior state and whatever
the outcome of the best-effort server call; a failed server call (with a
truthy access token, so the call was attempted) is logged as a warning and,
structurally, never surfaced: `logout` has no error outcome. -/
theorem C6_logout_clears_locally (srv : Except AxiosError Unit)
    (s : ApiState) :
    ((logout srv s).1.accessToken = none ∧
     (logout srv s).1.refreshToken = none ∧
     getItem (logout srv s).1.storage accessKey = none ∧
     getItem (logout srv s).1.storage refreshKey = none ∧
     isAuthenticated (logout srv s).1 = false) ∧
    (∀ e, srv = .error e → jsTruthyStr s.accessToken = true →
      (logout srv s).2 = ["Logout request failed"]) ∧
    ((logoutAll srv s).1.accessToken = none ∧
     (logoutAll srv s).1.refreshToken = none ∧
     getItem (logoutAll srv s).1.storage accessKey = none ∧
     getItem (logoutAll srv s).1.storage refreshKey = none) := by
  refine ⟨⟨rfl, rfl, clearTokens_storage_access s, clearTokens_storage_refresh s, rfl⟩,
    ?_, rfl, rfl, clearTokens_storage_access s, clearTokens_storage_refresh s⟩
  intro e he ht
  simp [logout, he, ht]

/-- C6, witness: a session with a stored token pair whose server-side logout
call fails with a network error still ends cleared, with the warning
logged. -/
theorem C6_logout_clears_locally_witness :
    ((logout (.error ⟨none, none, true, "network down"⟩)
        ⟨some "a1", some "r1", emptyStorage⟩).1.accessToken = none ∧
     (logout (.error ⟨none, none, true, "network down"⟩)
        ⟨some "a1", some "r1", emptyStorage⟩).2 = ["Logout request failed"]) := by
  have h := C6_logout_clears_locally
    (.error ⟨none, none, true, "network down"⟩)
    ⟨some "a1", some "r1", emptyStorage⟩
  exact ⟨h.1.1, h.2.1 _ rfl rfl⟩

/-! ## Claim C9 -/

/-- C9: logging in against a server answering
`{success: true, user: {username: "alice", …}, tokens: {access_token: "a1",
refresh_token: "r1", expires_in: 3600}}` persists `a1`/`r1` under the two
token store keys (and in memory), and the promise resolves with the response
whose user normalises (via `convertToUserProfile`) to a profile with
`username = "alice"`. -/
theorem C9_login_alice :
    getItem (login (.ok aliceResp) (constructApiService emptyStorage)).1.storage
        accessKey = some "a1" ∧
    getItem (login (.ok aliceResp) (constructApiService emptyStorage)).1.storage
        refreshKey = some "r1" ∧
    (login (.ok aliceResp) (constructApiService emptyStorage)).1.accessToken
        = some "a1" ∧
    (login (.ok aliceResp) (constructApiService emptyStorage)).1.refreshToken
        = some "r1" ∧
    (login (.ok aliceResp) (constructApiService emptyStorage)).2
        = .ok aliceResp ∧
    (convertToUserProfile aliceResp.user).username = "alice" := by
  have hst : (login (.ok aliceResp) (constructApiService emptyStorage)).1
      = saveTokens (constructApiService emptyStorage) "a1" "r1" := rfl
  refine ⟨?_, ?_, rfl, rfl, rfl, rfl⟩
  · rw [hst]; exact saveTokens_storage_access ..
  · rw [hst]; exact saveTokens_storage_refresh ..

/-! ## Claim C10 -/

/-- C10, counterexample. The claim says `isAuthenticated()` returns true if
and only if the in-memory access token is non-null. But the code computes
`!!this.accessToken`, i.e. JavaScript truthiness: a state whose store holds
the empty string under the access-token key loads to a non-null in-memory
access token for which `isAuthenticated()` is false. -/
theorem C10_counterexample_empty_token :
    (constructApiService (setItem emptyStorage accessKey "")).accessToken
        ≠ none ∧
    isAuthenticated (constructApiService (setItem emptyStorage accessKey ""))
        = false := by
  have ha : (constructApiService (setItem emptyStorage accessKey "")).accessToken
      = some "" := by
    simp only [constructApiService, loadTokens]
    exact getItem_setItem_self ..
  constructor
  · rw [ha]; exact fun h => Option.noConfusion h
  · rw [isAuthenticated, ha]; rfl

/-- C10 (amended): `isAuthenticated()` returns true iff the in-memory access
token is truthy — non-null and non-empty; it never reads the refresh token or
the store, so a state holding only a non-empty access token (e.g. loaded
from a store where only the access-token key survived) is reported
authenticated even though no refresh is possible from it. -/
theorem C10_isAuthenticated_truthy :
    (∀ s : ApiState,
      isAuthenticated s = true ↔ ∃ t, s.accessToken = some t ∧ t ≠ "") ∧
    (∀ (s : ApiState) (rt : Option String) (st : LocalStorage),
      isAuthenticated { s with refreshToken := rt, storage := st }
        = isAuthenticated s) ∧
    (isAuthenticated (constructApiService partialStore) = true ∧
     (constructApiService partialStore).refreshToken = none) := by
  refine ⟨?_, fun s rt st => rfl, ?_, ?_⟩
  · intro s
    rw [isAuthenticated]
    cases h : s.accessToken with
    | none => simp [jsTruthyStr]
    | some t =>
        simp only [jsTruthyStr]
        constructor
        · intro ht
          exact ⟨t, rfl, by simpa using ht⟩
        · rintro ⟨t', ht', hne⟩
          obtain rfl : t = t' := Option.some_injective _ ht'
          simpa using hne
  · rw [isAuthenticated, construct_partialStore_access]; rfl
  · exact construct_partialStore_refresh

/-! ## Interceptor lemmas (claims C1 and C4) -/

theorem jsTruthyStr_some_ne {R : String} (h : R ≠ "") :
    jsTruthyStr (some R) = true := by
  simp [jsTruthyStr, h]

theorem refreshAccessToken_ok {R : String} (s : ApiState)
    (hR : s.refreshToken = some R) (hRne : R ≠ "")
    (resp : AuthResponse) (t : Tokens) (hsucc : resp.success = true)
    (htok : resp.tokens = some t) :
    refreshAccessToken (.ok resp) s
      = (saveTokens s t.access_token t.refresh_token, .ok (), 1) := by
  unfold refreshAccessToken
  rw [hR, jsTruthyStr_some_ne hRne]
  simp [hsucc, htok]

theorem refreshAccessToken_fail {R : String}
    (res : Except AxiosError AuthResponse) (s : ApiState)
    (hR : s.refreshToken = some R) (hRne : R ≠ "")
    (hfail : refreshFailed res) :
    (refreshAccessToken res s).1 = clearTokens s ∧
    (∃ m, (refreshAccessToken res s).2.1 = .error (.err m)) ∧
    (refreshAccessToken res s).2.2 = 1 := by
  unfold refreshAccessToken
  rw [hR, jsTruthyStr_some_ne hRne]
  cases res with
  | ok resp =>
      rw [refreshFailed] at hfail
      rcases hfail with hs | ht
      · simp [hs]
      · rcases hres : resp.success with _ | _
        · simp [hres]
        · simp [hres, ht]
  | error e => simp

/-- Claim C1. With a stored token pair (access `A`, refresh `R` non-empty),
a rejection carrying a 401 on a not-yet-retried request triggers exactly one
`POST /auth/refresh` and marks the request retried; a request already marked
`_retry` triggers none (the guard). If the refresh succeeds with a new
token pair, the original request is replayed carrying the new bearer token
and the replay's result is what the caller receives. If the refresh fails,
both tokens end up cleared from memory and from the session store. -/
theorem C1_refresh_once_and_replay (env : InterceptEnv) (err : AxiosError)
    (req : OrigRequest) (s : ApiState) (A R : String)
    (_hA : s.accessToken = some A) (hR : s.refreshToken = some R)
    (hRne : R ≠ "") (h401 : err.status = some 401)
    (hretry : req.retry = false) :
    (responseInterceptorOnRejected env err req s).refreshPosts = 1 ∧
    (responseInterceptorOnRejected env err req s).request.retry = true ∧
    (∀ req' : OrigRequest, req'.retry = true →
      (responseInterceptorOnRejected env err req' s).refreshPosts = 0 ∧
      (responseInterceptorOnRejected env err req' s).result
        = .error (.axios err)) ∧
    (∀ resp t, env.refreshResult = .ok resp → resp.success = true →
      resp.tokens = some t →
      (responseInterceptorOnRejected env err req s).result = env.replayResult ∧
      (responseInterceptorOnRejected env err req s).request.auth
        = some ("Bearer " ++ t.access_token) ∧
      (responseInterceptorOnRejected env err req s).state.accessToken
        = some t.access_token ∧
      (responseInterceptorOnRejected env err req s).state.refreshToken
        = some t.refresh_token) ∧
    (refreshFailed env.refreshResult →
      (responseInterceptorOnRejected env err req s).state.accessToken = none ∧
      (responseInterceptorOnRejected env err req s).state.refreshToken = none ∧
      getItem (responseInterceptorOnRejected env err req s).state.storage
        accessKey = none ∧
      getItem (responseInterceptorOnRejected env err req s).state.storage
        refreshKey = none) := by
  have hcond : (err.status = some 401 ∧ req.retry = false) := ⟨h401, hretry⟩
  have hposts : ∀ res : Except AxiosError AuthResponse,
      (refreshAccessToken res s).2.2 = 1 := by
    intro res
    unfold refreshAccessToken
    rw [hR, jsTruthyStr_some_ne hRne]
    cases res with
    | ok resp =>
        rcases hres : resp.success with _ | _
        · simp [hres]
        · cases htok : resp.tokens with
          | some t => simp [hres, htok]
          | none => simp [hres, htok]
    | error e => simp
  refine ⟨?_, ?_, ?_, ?_, ?_⟩
  · unfold responseInterceptorOnRejected
    rw [if_pos hcond]
    rcases hrr : (refreshAccessToken env.refreshResult s) with ⟨s1, r, n⟩
    have : n = 1 := by rw [← hposts env.refreshResult, hrr]
    subst this
    cases r <;> rfl
  · unfold responseInterceptorOnRejected
    rw [if_pos hcond]
    rcases hrr : (refreshAccessToken env.refreshResult s) with ⟨s1, r, n⟩
    cases r <;> rfl
  · intro req' hret
    have hcond' : ¬ (err.status = some 401 ∧ req'.retry = false) := by
      rintro ⟨-, h⟩
      rw [hret] at h
      exact Bool.noConfusion h
    unfold responseInterceptorOnRejected
    rw [if_neg hcond']
    exact ⟨rfl, rfl⟩
  · intro resp t hres hsucc htok
    have heq : refreshAccessToken env.refreshResult s
        = (saveTokens s t.access_token t.refresh_token, .ok (), 1) := by
      rw [hres]
      exact refreshAccessToken_ok s hR hRne resp t hsucc htok
    unfold responseInterceptorOnRejected
    rw [if_pos hcond, heq]
    refine ⟨rfl, ?_, rfl, rfl⟩
    simp [saveTokens, bearerOf]
  · intro hfail
    obtain ⟨hst, -, -⟩ :=
      refreshAccessToken_fail env.refreshResult s hR hRne hfail
    have hexc : ∃ m, (refreshAccessToken env.refreshResult s).2.1
        = .error (.err m) :=
      (refreshAccessToken_fail env.refreshResult s hR hRne hfail).2.1
    obtain ⟨m, hm⟩ := hexc
    unfold responseInterceptorOnRejected
    rw [if_pos hcond]
    rcases hrr : (refreshAccessToken env.refreshResult s) with ⟨s1, r, n⟩
    rw [hrr] at hm hst
    simp only at hm hst
    subst hm
    subst hst
    exact ⟨rfl, rfl, clearTokens_storage_access _,
      clearTokens_storage_refresh _⟩

/-- C1, witness: the stored pair `A`/`R`, a 401 on an unretried request, a
refresh that succeeds with `a2`/`r2` — exactly one refresh POST, the replay's
result returned, the new bearer token stamped on the request. -/
theorem C1_refresh_once_and_replay_witness :
    reqOrig.retry = false ∧ err401.status = some 401 ∧
    sessionAR.refreshToken = some "R" ∧
    (responseInterceptorOnRejected envRefreshOk err401 reqOrig sessionAR).refreshPosts
      = 1 ∧
    (responseInterceptorOnRejected envRefreshOk err401 reqOrig sessionAR).result
      = .ok "replayed-response" ∧
    (responseInterceptorOnRejected envRefreshOk err401 reqOrig sessionAR).request.auth
      = some "Bearer a2" := by
  have h := C1_refresh_once_and_replay envRefreshOk err401 reqOrig sessionAR
    "A" "R" rfl rfl (by decide) rfl rfl
  have hok := h.2.2.2.1 refreshOkResp ⟨"a2", "r2", 3600⟩ rfl rfl rfl
  refine ⟨rfl, rfl, rfl, h.1, ?_, ?_⟩
  · rw [hok.1]; rfl
  · rw [hok.2.1]; rfl

/-- C4, counterexample. Original request rejected with a 401 (`err401`);
the refresh call then fails with a network error. The error the caller's
promise is rejected with is the refresh failure's error
(`Promise.reject(refreshError)`), not the originally failed request's error:
the claim as stated is false. -/
theorem C4_counterexample_refresh_error_propagates :
    (responseInterceptorOnRejected envRefreshFail err401 reqOrig sessionAR).result
      = .error (.err "Network error: Unable to connect to server") ∧
    (responseInterceptorOnRejected envRefreshFail err401 reqOrig sessionAR).result
      ≠ .error (.axios err401) := by
  have h1 : (responseInterceptorOnRejected envRefreshFail err401 reqOrig sessionAR).result
      = .error (.err "Network error: Unable to connect to server") := rfl
  refine ⟨h1, ?_⟩
  rw [h1]
  intro hcontra
  simp at hcontra

/-- C4 (amended). When a 401-rejected, unretried request's token refresh
fails, the session is cleared (memory and store), `redirectToLogin` runs
(raising the session-expired signal to the UI layer via
`window.gameUI.logout()` when present), and the caller's promise is rejected
— not silently swallowed — with the refresh failure's error (a service-built
`Error`), not with the original request's axios error. -/
theorem C4_refresh_failure_outcome (env : InterceptEnv) (err : AxiosError)
    (req : OrigRequest) (s : ApiState) (R : String)
    (hR : s.refreshToken = some R) (hRne : R ≠ "")
    (h401 : err.status = some 401) (hretry : req.retry = false)
    (hfail : refreshFailed env.refreshResult) :
    (responseInterceptorOnRejected env err req s).state.accessToken = none ∧
    (responseInterceptorOnRejected env err req s).state.refreshToken = none ∧
    getItem (responseInterceptorOnRejected env err req s).state.storage
      accessKey = none ∧
    getItem (responseInterceptorOnRejected env err req s).state.storage
      refreshKey = none ∧
    (responseInterceptorOnRejected env err req s).redirectCalled = true ∧
    (∀ e, (refreshAccessToken env.refreshResult s).2.1 = .error e →
      (responseInterceptorOnRejected env err req s).result = .error e) ∧
    (∃ m, (responseInterceptorOnRejected env err req s).result
      = .error (.err m)) ∧
    (∀ a : AxiosError,
      (responseInterceptorOnRejected env err req s).result
        ≠ .error (.axios a)) := by
  have hcond : (err.status = some 401 ∧ req.retry = false) := ⟨h401, hretry⟩
  obtain ⟨hst, ⟨m, hm⟩, -⟩ :=
    refreshAccessToken_fail env.refreshResult s hR hRne hfail
  rcases hrr : (refreshAccessToken env.refreshResult s) with ⟨s1, r, n⟩
  rw [hrr] at hst hm
  simp only at hst hm
  subst hst
  subst hm
  have hout : responseInterceptorOnRejected env err req s
      = { state := clearTokens (clearTokens s)
          request := { req with retry := true }
          result := .error (.err m)
          refreshPosts := n
          redirectCalled := true } := by
    unfold responseInterceptorOnRejected
    rw [if_pos hcond, hrr]
  rw [hout]
  refine ⟨rfl, rfl, clearTokens_storage_access _, clearTokens_storage_refresh _,
    rfl, ?_, ⟨m, rfl⟩, ?_⟩
  · intro e he
    have he2 : (Except.error (JsError.err m) : Except JsError Unit)
        = .error e := he
    injection he2 with h3
    subst h3
    rfl
  · intro a h
    simp at h

/-- C4 (amended), witness: the concrete 401-then-network-failure scenario. -/
theorem C4_refresh_failure_outcome_witness :
    refreshFailed envRefreshFail.refreshResult ∧
    (responseInterceptorOnRejected envRefreshFail err401 reqOrig sessionAR).state.accessToken
      = none ∧
    (responseInterceptorOnRejected envRefreshFail err401 reqOrig sessionAR).redirectCalled
      = true ∧
    (∃ m, (responseInterceptorOnRejected envRefreshFail err401 reqOrig sessionAR).result
      = .error (.err m)) := by
  have h := C4_refresh_failure_outcome envRefreshFail err401 reqOrig sessionAR
    "R" rfl (by decide) rfl rfl (by exact trivial)
  exact ⟨trivial, h.1, h.2.2.2.2.1, h.2.2.2.2.2.2.1⟩

/-- C10 (amended), witness: the truthiness characterisation at a concrete
authenticated state. -/
theorem C10_isAuthenticated_truthy_witness :
    isAuthenticated ⟨some "tok", none, emptyStorage⟩ = true ↔
      ∃ t, (⟨some "tok", none, emptyStorage⟩ : ApiState).accessToken = some t
        ∧ t ≠ "" :=
  C10_isAuthenticated_truthy.1 ⟨some "tok", none, emptyStorage⟩

/-! ## Bridge lemmas -/

theorem sentMessages_append (a b : List BridgeOut) :
    sentMessages (a ++ b) = sentMessages a ++ sentMessages b := by
  induction a with
  | nil => rfl
  | cons x rest ih => cases x <;> simp [sentMessages, ih]

theorem sendToUnity_not_ready (env : HostEnv) (s : UnityBridge) (m d : String)
    (h : s.isReady = false ∨ s.unityInstance = none) :
    sendToUnity env s m d
      = ({ s with messageQueue := s.messageQueue ++ [⟨m, d⟩] },
         [.warnQueued m d]) := by
  unfold sendToUnity
  rw [if_pos h]

theorem sendAll_not_ready (env : HostEnv) (msgs : List (String × String)) :
    ∀ s : UnityBridge, s.isReady = false ∨ s.unityInstance = none →
      (sendAll env s msgs).1.messageQueue
        = s.messageQueue ++ msgs.map (fun p => (⟨p.1, p.2⟩ : UnityMessage)) ∧
      (sendAll env s msgs).1.isReady = s.isReady ∧
      (sendAll env s msgs).1.unityInstance = s.unityInstance ∧
      sentMessages (sendAll env s msgs).2 = [] := by
  induction msgs with
  | nil =>
      intro s h
      exact ⟨by simp [sendAll], rfl, rfl, rfl⟩
  | cons p rest ih =>
      intro s h
      have h1 := sendToUnity_not_ready env s p.1 p.2 h
      have h' : ({ s with messageQueue := s.messageQueue ++ [⟨p.1, p.2⟩] }
          : UnityBridge).isReady = false ∨
          ({ s with messageQueue := s.messageQueue ++ [⟨p.1, p.2⟩] }
          : UnityBridge).unityInstance = none := h
      have ihres := ih { s with messageQueue := s.messageQueue ++ [⟨p.1, p.2⟩] } h'
      refine ⟨?_, ?_, ?_, ?_⟩
      · show (sendAll env (sendToUnity env s p.1 p.2).1 rest).1.messageQueue = _
        rw [h1]
        rw [ihres.1]
        simp
      · show (sendAll env (sendToUnity env s p.1 p.2).1 rest).1.isReady = _
        rw [h1]
        exact ihres.2.1
      · show (sendAll env (sendToUnity env s p.1 p.2).1 rest).1.unityInstance = _
        rw [h1]
        exact ihres.2.2.1
      · show sentMessages ((sendToUnity env s p.1 p.2).2
            ++ (sendAll env (sendToUnity env s p.1 p.2).1 rest).2) = _
        rw [h1, sentMessages_append]
        simp only [sentMessages]
        simpa using ihres.2.2.2

theorem processMessageQueue_drains (env : HostEnv) (inst : UnityInstance) :
    ∀ (q : List UnityMessage) (s : UnityBridge),
      s.messageQueue = q → s.isReady = true → s.unityInstance = some inst →
      (processMessageQueue env q.length s).1.messageQueue = [] ∧
      sentMessages (processMessageQueue env q.length s).2
        = q.map (fun m => (m.method, m.data)) := by
  intro q
  induction q with
  | nil =>
      intro s hq hr hi
      exact ⟨hq, rfl⟩
  | cons m rest ih =>
      intro s hq hr hi
      have hcond : ¬ (({ s with messageQueue := rest } : UnityBridge).isReady
          = false ∨
          ({ s with messageQueue := rest } : UnityBridge).unityInstance
          = none) := by
        simp [hr, hi]
      have hsend : sendToUnity env { s with messageQueue := rest }
          m.method m.data
          = ({ s with messageQueue := rest },
             .sendMessage "HybridUIManager" m.method m.data ::
               (if env.sendThrows m.method m.data
                then [.errorLog "Failed to send message to Unity"] else [])) := by
        unfold sendToUnity
        rw [if_neg hcond]
      have ihres := ih { s with messageQueue := rest } rfl hr hi
      have hstep : processMessageQueue env (m :: rest).length s
          = ((processMessageQueue env rest.length
                { s with messageQueue := rest }).1,
             (.sendMessage "HybridUIManager" m.method m.data ::
               (if env.sendThrows m.method m.data
                then [.errorLog "Failed to send message to Unity"] else [])) ++
             (processMessageQueue env rest.length
                { s with messageQueue := rest }).2) := by
        show processMessageQueue env (rest.length + 1) s = _
        simp only [processMessageQueue, hq]
        rw [hsend]
      rw [hstep]
      refine ⟨ihres.1, ?_⟩
      rw [sentMessages_append, ihres.2]
      have hfirst : sentMessages
          (.sendMessage "HybridUIManager" m.method m.data ::
            (if env.sendThrows m.method m.data
             then [.errorLog "Failed to send message to Unity"] else []))
          = [(m.method, m.data)] := by
        by_cases hthr : env.sendThrows m.method m.data
        · rw [if_pos hthr]; rfl
        · rw [if_neg hthr]; rfl
      rw [hfirst]
      simp

/-! ## Claim C2 -/

/-- Claim C2. Sends issued while the bridge is not ready (or has no
instance) are queued in order and nothing reaches the host; when `init`
then succeeds (loader available, instantiation does not throw), the drain
delivers exactly the buffered messages, in enqueue order, each exactly
once, and the queue ends empty. -/
theorem C2_fifo_exactly_once (env : HostEnv) (s0 : UnityBridge)
    (msgs : List (String × String))
    (hnr : s0.isReady = false ∨ s0.unityInstance = none)
    (hload : env.loaderAvailable = true)
    (hinst : env.instantiateThrows = false) :
    sentMessages (sendAll env s0 msgs).2 = [] ∧
    (sendAll env s0 msgs).1.messageQueue
      = s0.messageQueue ++ msgs.map (fun p => (⟨p.1, p.2⟩ : UnityMessage)) ∧
    (∀ s' outs, init env (sendAll env s0 msgs).1 = .ok (s', outs) →
      sentMessages outs
        = (s0.messageQueue
            ++ msgs.map (fun p => (⟨p.1, p.2⟩ : UnityMessage))).map
            (fun m => (m.method, m.data)) ∧
      s'.messageQueue = []) := by
  obtain ⟨hq, hrdy, hui, hsent⟩ := sendAll_not_ready env msgs s0 hnr
  refine ⟨hsent, hq, ?_⟩
  intro s' outs hinit
  have hnl : ¬ env.loaderAvailable = false := by rw [hload]; simp
  have hload_eq : loadUnity env (sendAll env s0 msgs).1
      = .ok ({ (sendAll env s0 msgs).1 with
               unityInstance := some env.instance0 }, [.instantiated]) := by
    unfold loadUnity
    rw [if_neg (by rw [hinst]; simp)]
  have hinit_eq : init env (sendAll env s0 msgs).1
      = .ok ((processMessageQueue env
               (sendAll env s0 msgs).1.messageQueue.length
               { (sendAll env s0 msgs).1 with
                 unityInstance := some env.instance0
                 uiDispatchInstalled := true, isReady := true }).1,
             .instantiated ::
             (processMessageQueue env
               (sendAll env s0 msgs).1.messageQueue.length
               { (sendAll env s0 msgs).1 with
                 unityInstance := some env.instance0
                 uiDispatchInstalled := true, isReady := true }).2) := by
    unfold init
    rw [if_neg hnl, hload_eq]
    rfl
  rw [hinit_eq] at hinit
  have hpair := Except.ok.inj hinit
  have hs' : s' = (processMessageQueue env
      (sendAll env s0 msgs).1.messageQueue.length
      { (sendAll env s0 msgs).1 with
        unityInstance := some env.instance0
        uiDispatchInstalled := true, isReady := true }).1 :=
    (congrArg Prod.fst hpair).symm
  have houts : outs = .instantiated ::
      (processMessageQueue env
        (sendAll env s0 msgs).1.messageQueue.length
        { (sendAll env s0 msgs).1 with
          unityInstance := some env.instance0
          uiDispatchInstalled := true, isReady := true }).2 :=
    (congrArg Prod.snd hpair).symm
  have hdrain := processMessageQueue_drains env env.instance0
    (sendAll env s0 msgs).1.messageQueue
    { (sendAll env s0 msgs).1 with
      unityInstance := some env.instance0
      uiDispatchInstalled := true, isReady := true }
    rfl rfl rfl
  constructor
  · rw [houts]
    show sentMessages (processMessageQueue env
        (sendAll env s0 msgs).1.messageQueue.length _).2 = _
    rw [hdrain.2, hq]
  · rw [hs', hdrain.1]

/-- C2, witness: two messages sent on a fresh (not ready) bridge are queued
without reaching the host; the subsequent successful `init` delivers exactly
`M1` then `M2` and empties the queue. -/
theorem C2_fifo_exactly_once_witness :
    (UnityBridge.mk0.isReady = false ∨ UnityBridge.mk0.unityInstance = none) ∧
    sentMessages (sendAll goodHost UnityBridge.mk0 twoMsgs).2 = [] ∧
    (sendAll goodHost UnityBridge.mk0 twoMsgs).1.messageQueue
      = [⟨"M1", "d1"⟩, ⟨"M2", "d2"⟩] ∧
    sentMessages ((processMessageQueue goodHost 2
        { (sendAll goodHost UnityBridge.mk0 twoMsgs).1 with
          unityInstance := some goodHost.instance0
          uiDispatchInstalled := true, isReady := true }).2)
      = [("M1", "d1"), ("M2", "d2")] := by
  have h := C2_fifo_exactly_once goodHost UnityBridge.mk0 twoMsgs
    (Or.inl rfl) rfl rfl
  have happ := h.2.2
    (processMessageQueue goodHost 2
      { (sendAll goodHost UnityBridge.mk0 twoMsgs).1 with
        unityInstance := some goodHost.instance0
        uiDispatchInstalled := true, isReady := true }).1
    (.instantiated ::
      (processMessageQueue goodHost 2
        { (sendAll goodHost UnityBridge.mk0 twoMsgs).1 with
          unityInstance := some goodHost.instance0
          uiDispatchInstalled := true, isReady := true }).2)
    rfl
  refine ⟨Or.inl rfl, h.1, ?_, ?_⟩
  · rw [h.2.1]; rfl
  · exact happ.1

/-! ## Claim C3 -/

/-- Claim C3, evaluated at the failing input. A second `init()` on a bridge
that is already ready runs the whole body again: `waitForUnity` only checks
for the host loader, so `loadUnity` calls `UnityLoader.instantiate` a second
time (one `.instantiated` output, where the claim requires none). The
no-duplicate-send half does hold: re-draining the empty queue sends
nothing. -/
theorem C3_second_init_reinstantiates :
    init goodHost UnityBridge.mk0
      = .ok (bridgeAfterFirstInit, [.instantiated]) ∧
    init goodHost bridgeAfterFirstInit
      = .ok (bridgeAfterFirstInit, [.instantiated]) ∧
    instantiations [(.instantiated : BridgeOut)] = 1 ∧
    sentMessages [(.instantiated : BridgeOut)] = [] :=
  ⟨rfl, rfl, rfl, rfl⟩

/-! ## Claims C7 and C8 -/

theorem runCallbacks_ids (d : String) (l : List EventHandler) :
    (runCallbacks l d).1 = l.map (fun cb => cb.id) := by
  induction l with
  | nil => rfl
  | cons cb rest ih => simp [runCallbacks, ih]

theorem runCallbacks_logs_length (d : String) (l : List EventHandler) :
    (runCallbacks l d).2.length
      = l.countP (fun cb => handlerThrows cb d) := by
  induction l with
  | nil => rfl
  | cons cb rest ih =>
      cases hcb : cb.run d with
      | ok u =>
          simp [runCallbacks, hcb, ih, List.countP_cons, handlerThrows]
      | error e =>
          simp [runCallbacks, hcb, ih, List.countP_cons, handlerThrows]

theorem emit_state_unchanged (s : UnityBridge) (event d : String) :
    (emit s event d).1 = s := by
  unfold emit
  cases s.eventListeners event <;> rfl

theorem emit_invoked_ids (s : UnityBridge) (event d : String) :
    (emit s event d).2.1
      = ((s.eventListeners event).getD []).map (fun cb => cb.id) := by
  unfold emit
  cases hl : s.eventListeners event with
  | none => rfl
  | some listeners => simp [runCallbacks_ids]

theorem emit_logs_length (s : UnityBridge) (event d : String) :
    (emit s event d).2.2.length
      = ((s.eventListeners event).getD []).countP
          (fun cb => handlerThrows cb d) := by
  unfold emit
  cases hl : s.eventListeners event with
  | none => rfl
  | some listeners => simp [runCallbacks_logs_length]

theorem onEvent_listeners (s : UnityBridge) (event : String)
    (cb : EventHandler) :
    (onEvent s event cb).eventListeners event
      = some (((s.eventListeners event).getD []) ++ [cb]) := by
  simp [onEvent]

/-- Claim C7. `emit` invokes exactly the event's handlers, in subscription
order (`on` appends, `emit` runs the array front to back); each throwing
handler contributes one caught-and-logged error and stops nothing: the
invoked list is the full listener list whatever each handler does; and the
subscription state is untouched by dispatch. -/
theorem C7_emit_dispatch_isolated (s : UnityBridge) (event d : String) :
    (emit s event d).1 = s ∧
    (emit s event d).2.1
      = ((s.eventListeners event).getD []).map (fun cb => cb.id) ∧
    (emit s event d).2.2.length
      = ((s.eventListeners event).getD []).countP
          (fun cb => handlerThrows cb d) ∧
    (∀ cb, (onEvent s event cb).eventListeners event
      = some (((s.eventListeners event).getD []) ++ [cb])) :=
  ⟨emit_state_unchanged s event d, emit_invoked_ids s event d,
   emit_logs_length s event d, fun cb => onEvent_listeners s event cb⟩

theorem jsIndexOf_not_mem (cb : EventHandler) :
    ∀ l : List EventHandler, cb.id ∉ l.map (fun h => h.id) →
      jsIndexOf l cb = none := by
  intro l
  induction l with
  | nil => intro _; rfl
  | cons x rest ih =>
      intro h
      rw [List.map_cons] at h
      have hx : x.id ≠ cb.id :=
        fun he => h (by rw [he]; exact List.mem_cons_self _ _)
      have hrest : cb.id ∉ rest.map (fun h => h.id) :=
        fun hm => h (List.mem_cons_of_mem _ hm)
      rw [jsIndexOf, if_neg (by simpa using hx), ih hrest]
      rfl

theorem jsIndexOf_append_self (cb : EventHandler) :
    ∀ l : List EventHandler, cb.id ∉ l.map (fun h => h.id) →
      jsIndexOf (l ++ [cb]) cb = some l.length := by
  intro l
  induction l with
  | nil =>
      intro _
      show jsIndexOf (cb :: []) cb = some 0
      rw [jsIndexOf, if_pos (by simp)]
  | cons x rest ih =>
      intro h
      rw [List.map_cons] at h
      have hx : x.id ≠ cb.id :=
        fun he => h (by rw [he]; exact List.mem_cons_self _ _)
      have hrest : cb.id ∉ rest.map (fun h => h.id) :=
        fun hm => h (List.mem_cons_of_mem _ hm)
      show jsIndexOf (x :: (rest ++ [cb])) cb = some (rest.length + 1)
      rw [jsIndexOf, if_neg (by simpa using hx), ih hrest]
      rfl

theorem eraseIdx_append_singleton (cb : EventHandler) :
    ∀ l : List EventHandler, (l ++ [cb]).eraseIdx l.length = l := by
  intro l
  induction l with
  | nil => rfl
  | cons x rest ih =>
      show ((x :: (rest ++ [cb])).eraseIdx (rest.length + 1)) = x :: rest
      rw [List.eraseIdx]
      rw [ih]

/-- C8, counterexample. The claim's guarantee fails under duplicate
subscription: after `on("E", h); on("E", h)`, a single `off("E", h)` —
which is an `off` after an `on` — removes only the first occurrence
(`indexOf`/`splice`), and a subsequent `emit("E")` still invokes the
handler. -/
theorem C8_counterexample_duplicate_subscription :
    (emit (offEvent (onEvent (onEvent UnityBridge.mk0 "E" handlerOne)
        "E" handlerOne) "E" handlerOne) "E" "payload").2.1 = [1] ∧
    (1 : Nat) ∈ (emit (offEvent (onEvent (onEvent UnityBridge.mk0 "E"
        handlerOne) "E" handlerOne) "E" handlerOne) "E" "payload").2.1 := by
  have h1 : (emit (offEvent (onEvent (onEvent UnityBridge.mk0 "E" handlerOne)
      "E" handlerOne) "E" handlerOne) "E" "payload").2.1 = [1] := rfl
  refine ⟨h1, ?_⟩
  rw [h1]
  exact List.mem_singleton.mpr rfl

/-- C8 (amended). `off` removes a single registration — the first
`indexOf` hit — and is a no-op when the handler is not currently
registered; consequently, when the handler is not already registered,
`off(event, handler)` after `on(event, handler)` guarantees the handler is
not invoked by subsequent emissions of the event. (With duplicate
registrations, one `off` leaves an earlier registration in place and the
handler is still invoked.) -/
theorem C8_off_after_on (s : UnityBridge) (event : String)
    (cb : EventHandler) (d : String)
    (hnm : cb.id ∉ ((s.eventListeners event).getD []).map (fun h => h.id)) :
    offEvent s event cb = s ∧
    cb.id ∉ (emit (offEvent (onEvent s event cb) event cb) event d).2.1 := by
  constructor
  · cases hl : s.eventListeners event with
    | none => simp [offEvent, hl]
    | some listeners =>
        simp [offEvent, hl,
          jsIndexOf_not_mem cb listeners (by simpa [hl] using hnm)]
  · have hoff : (offEvent (onEvent s event cb) event cb).eventListeners event
        = some ((s.eventListeners event).getD []) := by
      simp only [offEvent, onEvent_listeners,
        jsIndexOf_append_self cb _ hnm, eraseIdx_append_singleton]
      simp
    rw [emit_invoked_ids, hoff]
    simpa using hnm

/-- C8 (amended), witness: on a fresh bridge, `off` with an unregistered
handler is a no-op, and `off` after a single `on` leaves the handler
uninvoked by a subsequent `emit`. -/
theorem C8_off_after_on_witness :
    (handlerOne.id
      ∉ ((UnityBridge.mk0.eventListeners "E").getD []).map (fun h => h.id)) ∧
    offEvent UnityBridge.mk0 "E" handlerOne = UnityBridge.mk0 ∧
    handlerOne.id ∉ (emit (offEvent (onEvent UnityBridge.mk0 "E" handlerOne)
      "E" handlerOne) "E" "d").2.1 := by
  have hnm : handlerOne.id
      ∉ ((UnityBridge.mk0.eventListeners "E").getD []).map (fun h => h.id) := by
    simp [UnityBridge.mk0]
  have h := C8_off_after_on UnityBridge.mk0 "E" handlerOne "d" hnm
  exact ⟨hnm, h.1, h.2⟩

end ChaosFrontend
